import Mathlib

/-!
Verification development for the PulseWatch monitor polling and
status-evaluation engine (`services/monitor/worker.py`).

The decision logic of the worker is embedded shallowly:

* Python strings become `List Char`; the string operations the worker uses
  (`split`, `strip`, `isdigit`, `int`) are reimplemented over `List Char`
  with the Python semantics on ASCII input.
* `in_expected` is a direct transcription of the status-spec evaluator.
* `check_once` is effectful in Python (network probe, then a POST to the
  store).  Its decision logic is embedded as a pure function of the probe
  outcome (`ProbeOutcome`), with the delivery call modelled as an
  `Except`-valued argument; an exception raised by the real POST corresponds
  to the `.error` result.  Wall-clock latency measurement is real-time
  behaviour and is left out of the functional model.
* One iteration of the infinite loop in `runner` is embedded as `runnerCycle`,
  a function of the fetch outcome (the GET + `raise_for_status` + JSON
  decode collapse into one `Except`-valued input).
-/

/-- Python strings, modelled as their character lists. -/
abbrev Str := List Char

/-- The whitespace test used by the Python `str.strip` (ASCII fragment). -/
def pyIsSpace (c : Char) : Bool := c.isWhitespace

/-- Python `s.strip()`: drop leading and trailing whitespace. -/
def pyStrip (s : Str) : Str :=
  ((s.dropWhile pyIsSpace).reverse.dropWhile pyIsSpace).reverse

/-- Python `s.split(",")`.  Note `"".split(",") == [""]`: the result is
always a nonempty list of (possibly empty) fields. -/
def splitComma : Str → List Str
  | [] => [[]]
  | c :: rest =>
    if c = ',' then [] :: splitComma rest
    else
      match splitComma rest with
      | [] => [[c]]
      | t :: ts => (c :: t) :: ts

/-- Python `"-" in p`. -/
def hasDash (p : Str) : Bool := p.any (fun c => c == '-')

/-- Python `p.split("-", 1)` for the case the worker uses it in (`"-" in p`
holds): the field before the first dash and everything after it. -/
def splitDash1 : Str → Str × Str
  | [] => ([], [])
  | c :: rest =>
    if c = '-' then ([], rest)
    else
      let q := splitDash1 rest
      (c :: q.1, q.2)

/-- Python `p.isdigit()` on ASCII input: nonempty and all decimal digits. -/
def pyIsDigit (s : Str) : Bool := !s.isEmpty && s.all Char.isDigit

/-- Python `int(p)` on a decimal-digit string. -/
def digitsToNat (s : Str) : Nat :=
  s.foldl (fun acc c => acc * 10 + (c.toNat - '0'.toNat)) 0

/-- The loop body of `in_expected` for one (already stripped) token `p`:
`if "-" in p: a, b = p.split("-", 1); a.isdigit() and b.isdigit() and
int(a) <= status <= int(b)` else `p.isdigit() and int(p) == status`. -/
def tokenOk (status : Int) (p : Str) : Bool :=
  if hasDash p then
    let ab := splitDash1 p
    pyIsDigit ab.1 && pyIsDigit ab.2 &&
      decide ((digitsToNat ab.1 : Int) ≤ status) &&
      decide (status ≤ (digitsToNat ab.2 : Int))
  else
    pyIsDigit p && decide ((digitsToNat p : Int) = status)

/-- Transcription of `in_expected(status, spec)` from `worker.py`: split the spec on commas,
strip each part, return True as soon as a token matches, False otherwise. -/
def in_expected (status : Int) (spec : Str) : Bool :=
  (splitComma spec).any (fun p => tokenOk status (pyStrip p))

example : in_expected 204 ("200-399".toList) = true := by decide
example : in_expected 201 ("200,201,204".toList) = true := by decide
example : in_expected 404 ("200-299".toList) = false := by decide
example : in_expected 200 ("200-299,abc".toList) = true := by decide
example : in_expected 250 (" 200 - 399 ".toList) = false := by decide
example : in_expected 250 (" 200-399 ".toList) = true := by decide
example : in_expected 200 ("".toList) = false := by decide
example : in_expected 5 ("300-200".toList) = false := by decide

/-- A monitor record as the worker sees it: a JSON object fetched from the
store.  `mon["id"]` and `mon["url"]` are accessed with brackets (required),
while `method`, `timeout_ms`, `expected_statuses` and `is_enabled` are read
with `mon.get(..., default)` and so may be absent (`none`). -/
structure Monitor where
  id : Int
  url : Str
  method : Option Str := none
  timeout_ms : Option Int := none
  expected_statuses : Option Str := none
  interval_sec : Option Int := none
  is_enabled : Option Bool := none
deriving Repr, DecidableEq

/-- The default expected-status specification, `"200-399"`. -/
def defaultSpec : Str := "200-399".toList

/-- Python `mon.get("expected_statuses", "200-399")`. -/
def expectedSpec (mon : Monitor) : Str := mon.expected_statuses.getD defaultSpec

/-- The outcome of the awaited `client.request` inside the `try` block of
`check_once`: either a response carrying a status code, or a raised transport
exception carrying its description `str(e)`. -/
inductive ProbeOutcome where
  | response (status_code : Int)
  | failure (desc : Str)
deriving Repr, DecidableEq

/-- The body `check_once` POSTs to `{API_URL}/checks` (the wall-clock
`latency_ms` field is real-time measurement and is not modelled). -/
structure CheckPayload where
  monitor_id : Int
  status_code : Option Int
  ok : Bool
  error_reason : Option Str
deriving Repr, DecidableEq

/-- The classification part of `check_once`: starting from
`ok = False; status_code = None; err = None`, the `try` block records the
status of the response and evaluates `in_expected` against
`mon.get("expected_statuses", "200-399")`, and the `except` branch records
`err = str(e)[:300]`. -/
def buildCheck (mon : Monitor) (outcome : ProbeOutcome) : CheckPayload :=
  match outcome with
  | .response st =>
    { monitor_id := mon.id
      status_code := some st
      ok := in_expected st (expectedSpec mon)
      error_reason := none }
  | .failure desc =>
    { monitor_id := mon.id
      status_code := none
      ok := false
      error_reason := some (desc.take 300) }

/-- Whole of `check_once`: classify the probe outcome, then perform the
delivery POST.  The POST sits outside the `try`/`except`, so a delivery
failure surfaces as `.error` (the raised exception propagating to the
caller); on success the delivered payload is returned. -/
def check_once (mon : Monitor) (outcome : ProbeOutcome)
    (post : CheckPayload → Except Str Unit) : Except Str CheckPayload :=
  let payload := buildCheck mon outcome
  match post payload with
  | .ok _ => .ok payload
  | .error e => .error e

/-- The filter in the task list of `runner`:
`[check_once(client, m) for m in monitors if m.get("is_enabled", True)]`. -/
def enabledMonitors (monitors : List Monitor) : List Monitor :=
  monitors.filter (fun m => m.is_enabled.getD true)

/-- Observable effects of one iteration of the `while True` loop in `runner`. -/
structure CycleResult where
  probesLaunched : List Monitor
  postAttempts : List CheckPayload
  loggedError : Option Str
  sleepSec : Nat
deriving Repr, DecidableEq

/-- One iteration of the `runner` loop.  Here `fetch` is the combined outcome of
the GET on `/public/monitors`, `raise_for_status()` and the JSON decode;
an exception in any of them reaches the loop-level `except` with no task
created.  On a successful fetch, one `check_once` task is created per
enabled monitor and `asyncio.gather` awaits them; every task attempts its
own POST, and the first raised delivery error (if any) is what the
loop-level `except` logs.  Either way the iteration ends in `asyncio.sleep(60)`. -/
def runnerCycle (fetch : Except Str (List Monitor))
    (probeOf : Monitor → ProbeOutcome)
    (post : CheckPayload → Except Str Unit) : CycleResult :=
  match fetch with
  | .error e =>
    { probesLaunched := [], postAttempts := [], loggedError := some e, sleepSec := 60 }
  | .ok monitors =>
    let tasks := enabledMonitors monitors
    let payloads := tasks.map (fun m => buildCheck m (probeOf m))
    let failures := payloads.filterMap (fun c =>
      match post c with
      | .ok _ => none
      | .error e => some e)
    { probesLaunched := tasks
      postAttempts := payloads
      loggedError := failures.head?
      sleepSec := 60 }

/-- Declarative token grammar, following the words of the specification: a token
is either a single non-negative integer or a two-sided inclusive range. -/
inductive SpecToken where
  | exact (n : Nat)
  | range (lo hi : Nat)
deriving Repr, DecidableEq

/-- Declarative token parse, following the words of the specification: a purely
numeric token is an exact status, a token `A-B` with numeric bounds is an
inclusive range, anything else is malformed and yields no token. -/
def parseToken (p : Str) : Option SpecToken :=
  if hasDash p then
    let ab := splitDash1 p
    if pyIsDigit ab.1 && pyIsDigit ab.2 then
      some (.range (digitsToNat ab.1) (digitsToNat ab.2))
    else none
  else if pyIsDigit p then some (.exact (digitsToNat p)) else none

/-- The valid tokens of a spec string: comma-split, trim, drop malformed. -/
def specTokens (spec : Str) : List SpecToken :=
  (splitComma spec).filterMap (fun p => parseToken (pyStrip p))

/-- Whether a status satisfies one declarative token. -/
def tokenSat (status : Int) : SpecToken → Bool
  | .exact n => decide ((n : Int) = status)
  | .range lo hi => decide ((lo : Int) ≤ status) && decide (status ≤ (hi : Int))

/-- Comma-join, the inverse of comma-splitting for comma-free fields. -/
def joinComma : List Str → Str
  | [] => []
  | [x] => x
  | x :: xs => x ++ ',' :: joinComma xs

lemma isWhitespace_cases (c : Char) (h : c.isWhitespace = true) :
    c = ' ' ∨ c = '\t' ∨ c = '\r' ∨ c = '\n' := by
  simpa [Char.isWhitespace, or_assoc] using h

lemma isDigit_facts (c : Char) (h : c.isDigit = true) :
    c ≠ ',' ∧ c ≠ '-' ∧ pyIsSpace c = false := by
  refine ⟨fun hc => ?_, fun hc => ?_, ?_⟩
  · subst hc; exact absurd h (by decide)
  · subst hc; exact absurd h (by decide)
  · cases hsp : pyIsSpace c with
    | false => rfl
    | true =>
      rcases isWhitespace_cases c hsp with rfl | rfl | rfl | rfl <;>
        exact absurd h (by decide)

lemma pyIsDigit_mem {s : Str} (h : pyIsDigit s = true) :
    s ≠ [] ∧ ∀ c ∈ s, c.isDigit = true := by
  simp only [pyIsDigit, Bool.and_eq_true, Bool.not_eq_true', List.all_eq_true] at h
  refine ⟨fun hnil => ?_, h.2⟩
  rw [hnil] at h
  simp at h

lemma dropWhile_eq_self (p : Char → Bool) (s : Str) (h : ∀ c ∈ s, p c = false) :
    s.dropWhile p = s := by
  cases s with
  | nil => rfl
  | cons c r => simp [List.dropWhile_cons, h c (List.mem_cons_self c r)]

lemma pyStrip_eq_self (s : Str) (h : ∀ c ∈ s, pyIsSpace c = false) :
    pyStrip s = s := by
  unfold pyStrip
  rw [dropWhile_eq_self _ _ h,
    dropWhile_eq_self _ _ (fun c hc => h c (List.mem_reverse.mp hc)),
    List.reverse_reverse]

lemma splitComma_no_comma (s : Str) (h : ∀ c ∈ s, c ≠ ',') :
    splitComma s = [s] := by
  induction s with
  | nil => rfl
  | cons c r ih =>
    have hc : c ≠ ',' := h c (List.mem_cons_self c r)
    rw [splitComma, if_neg hc, ih (fun x hx => h x (List.mem_cons_of_mem _ hx))]

lemma splitComma_append (x rest : Str) (h : ∀ c ∈ x, c ≠ ',') :
    splitComma (x ++ ',' :: rest) = x :: splitComma rest := by
  induction x with
  | nil => simp [splitComma]
  | cons c r ih =>
    have hc : c ≠ ',' := h c (List.mem_cons_self c r)
    rw [List.cons_append, splitComma, if_neg hc,
      ih (fun x hx => h x (List.mem_cons_of_mem _ hx))]

lemma splitDash1_append (a b : Str) (h : '-' ∉ a) :
    splitDash1 (a ++ '-' :: b) = (a, b) := by
  induction a with
  | nil => simp [splitDash1]
  | cons c r ih =>
    have hc : c ≠ '-' := fun hc => h (hc ▸ List.mem_cons_self c r)
    have ih2 := ih (fun hm => h (List.mem_cons_of_mem _ hm))
    simp [splitDash1, hc, ih2]

lemma hasDash_of_mem {p : Str} (h : '-' ∈ p) : hasDash p = true := by
  simp only [hasDash, List.any_eq_true]
  exact ⟨'-', h, by decide⟩

lemma hasDash_eq_false {p : Str} (h : ∀ c ∈ p, c ≠ '-') : hasDash p = false := by
  simp only [hasDash, List.any_eq_false]
  intro c hc
  simpa using h c hc

lemma in_expected_dash (s : Int) (a b : Str) (hda : '-' ∉ a)
    (hca : ',' ∉ a) (hcb : ',' ∉ b)
    (hstrip : pyStrip (a ++ '-' :: b) = a ++ '-' :: b) :
    in_expected s (a ++ '-' :: b) =
      (pyIsDigit a && pyIsDigit b &&
        decide ((digitsToNat a : Int) ≤ s) &&
        decide (s ≤ (digitsToNat b : Int))) := by
  have hnc : ∀ c ∈ a ++ '-' :: b, c ≠ ',' := by
    intro c hc
    rcases List.mem_append.mp hc with hc | hc
    · exact fun hx => hca (hx ▸ hc)
    · rcases List.mem_cons.mp hc with rfl | hc
      · decide
      · exact fun hx => hcb (hx ▸ hc)
  have hd : hasDash (a ++ '-' :: b) = true :=
    hasDash_of_mem (List.mem_append.mpr (Or.inr (List.mem_cons_self _ _)))
  rw [in_expected, splitComma_no_comma _ hnc]
  simp only [List.any_cons, List.any_nil, Bool.or_false]
  rw [hstrip, tokenOk, if_pos hd, splitDash1_append a b hda]

lemma pyStrip_digit_range (a b : Str)
    (ha : ∀ c ∈ a, c.isDigit = true) (hb : ∀ c ∈ b, c.isDigit = true) :
    pyStrip (a ++ '-' :: b) = a ++ '-' :: b := by
  apply pyStrip_eq_self
  intro c hc
  rcases List.mem_append.mp hc with hc | hc
  · exact (isDigit_facts c (ha c hc)).2.2
  · rcases List.mem_cons.mp hc with rfl | hc
    · decide
    · exact (isDigit_facts c (hb c hc)).2.2

lemma in_expected_digit_range (s : Int) (A B : Str)
    (hA : pyIsDigit A = true) (hB : pyIsDigit B = true) :
    (in_expected s (A ++ '-' :: B) = true ↔
      (digitsToNat A : Int) ≤ s ∧ s ≤ (digitsToNat B : Int)) := by
  obtain ⟨-, hmA⟩ := pyIsDigit_mem hA
  obtain ⟨-, hmB⟩ := pyIsDigit_mem hB
  rw [in_expected_dash s A B
    (fun hm => absurd (hmA '-' hm) (by decide))
    (fun hm => absurd (hmA ',' hm) (by decide))
    (fun hm => absurd (hmB ',' hm) (by decide))
    (pyStrip_digit_range A B hmA hmB)]
  simp [hA, hB]

lemma tokenOk_eq_parseToken (s : Int) (p : Str) :
    tokenOk s p = ((parseToken p).map (tokenSat s)).getD false := by
  unfold tokenOk parseToken
  by_cases hd : hasDash p = true
  · cases h1 : pyIsDigit (splitDash1 p).1 <;>
      cases h2 : pyIsDigit (splitDash1 p).2 <;>
        simp [hd, h1, h2, tokenSat, Bool.and_assoc]
  · rw [Bool.not_eq_true] at hd
    cases hp : pyIsDigit p <;> simp [hd, hp, tokenSat]

lemma tokenOk_digits (s : Int) (n : Str) (h : pyIsDigit n = true) :
    tokenOk s (pyStrip n) = decide ((digitsToNat n : Int) = s) := by
  obtain ⟨-, hmem⟩ := pyIsDigit_mem h
  rw [pyStrip_eq_self n (fun c hc => (isDigit_facts c (hmem c hc)).2.2)]
  have hd : hasDash n = false :=
    hasDash_eq_false (fun c hc => (isDigit_facts c (hmem c hc)).2.1)
  rw [tokenOk, if_neg (by simp [hd]), h, Bool.true_and]

lemma in_expected_iff_specTokens (s : Int) (spec : Str) :
    (in_expected s spec = true ↔ ∃ t ∈ specTokens spec, tokenSat s t = true) := by
  unfold in_expected specTokens
  rw [List.any_eq_true]
  constructor
  · rintro ⟨p, hp, hok⟩
    rw [tokenOk_eq_parseToken] at hok
    cases hparse : parseToken (pyStrip p) with
    | none => rw [hparse] at hok; simp at hok
    | some t =>
      rw [hparse] at hok
      simp only [Option.map_some', Option.getD_some] at hok
      exact ⟨t, List.mem_filterMap.mpr ⟨p, hp, hparse⟩, hok⟩
  · rintro ⟨t, ht, hsat⟩
    rcases List.mem_filterMap.mp ht with ⟨p, hp, hparse⟩
    refine ⟨p, hp, ?_⟩
    rw [tokenOk_eq_parseToken, hparse]
    simpa using hsat

lemma splitComma_joinComma (ns : List Str) (hne : ns ≠ [])
    (h : ∀ n ∈ ns, ∀ c ∈ n, c ≠ ',') :
    splitComma (joinComma ns) = ns := by
  induction ns with
  | nil => exact absurd rfl hne
  | cons x xs ih =>
    cases xs with
    | nil => exact splitComma_no_comma x (h x (List.mem_cons_self _ _))
    | cons y ys =>
      have hx : ∀ c ∈ x, c ≠ ',' := h x (List.mem_cons_self _ _)
      have hrest : ∀ n ∈ y :: ys, ∀ c ∈ n, c ≠ ',' :=
        fun n hn => h n (List.mem_cons_of_mem _ hn)
      show splitComma (x ++ ',' :: joinComma (y :: ys)) = x :: y :: ys
      rw [splitComma_append x _ hx, ih (by simp) hrest]

lemma in_expected_int_list (s : Int) (ns : List Str) (hne : ns ≠ [])
    (h : ∀ n ∈ ns, pyIsDigit n = true) :
    (in_expected s (joinComma ns) = true ↔
      ∃ n ∈ ns, (digitsToNat n : Int) = s) := by
  unfold in_expected
  rw [splitComma_joinComma ns hne
    (fun n hn c hc => (isDigit_facts c ((pyIsDigit_mem (h n hn)).2 c hc)).1)]
  rw [List.any_eq_true]
  constructor
  · rintro ⟨n, hn, hok⟩
    rw [tokenOk_digits s n (h n hn)] at hok
    exact ⟨n, hn, of_decide_eq_true hok⟩
  · rintro ⟨n, hn, heq⟩
    exact ⟨n, hn, by rw [tokenOk_digits s n (h n hn)]; exact decide_eq_true heq⟩

/-- Concrete monitor with all optional fields absent. -/
def monA : Monitor := { id := 1, url := "http://example.test/health".toList }

/-- Concrete enabled monitor with an explicit expected-status spec. -/
def monB : Monitor :=
  { id := 2, url := "http://example.test/b".toList,
    expected_statuses := some ("200,201,204".toList), is_enabled := some true }

/-- Concrete disabled monitor. -/
def monC : Monitor :=
  { id := 3, url := "http://example.test/c".toList, is_enabled := some false }

/-- Concrete monitor whose record lacks the is_enabled field. -/
def monD : Monitor := { id := 4, url := "http://example.test/d".toList }

/-- A delivery POST that always fails (store unreachable). -/
def postRefused : CheckPayload → Except Str Unit :=
  fun _ => .error ("connect refused to api".toList)

/-- A delivery POST that always succeeds. -/
def postAccepts : CheckPayload → Except Str Unit := fun _ => .ok ()

/-- A probe behaviour answering every monitor with a 200 response. -/
def probeAll200 : Monitor → ProbeOutcome := fun _ => .response 200

/-- Claim C1: for an integer s and a single-token spec A-B whose bounds are
decimal digit strings, `in_expected` returns true iff A ≤ s ≤ B (so a
reversed range with A > B never matches), and a single range token with a
non-numeric bound contributes no match. -/
theorem claim_C1_range_token_semantics :
    (∀ (s : Int) (A B : Str), pyIsDigit A = true → pyIsDigit B = true →
      (in_expected s (A ++ '-' :: B) = true ↔
        (digitsToNat A : Int) ≤ s ∧ s ≤ (digitsToNat B : Int))) ∧
    (∀ (s : Int) (A B : Str), pyIsDigit A = true → pyIsDigit B = true →
      digitsToNat B < digitsToNat A → in_expected s (A ++ '-' :: B) = false) ∧
    (∀ (s : Int) (a b : Str), '-' ∉ a → ',' ∉ a → ',' ∉ b →
      pyStrip (a ++ '-' :: b) = a ++ '-' :: b →
      ¬(pyIsDigit a = true ∧ pyIsDigit b = true) →
      in_expected s (a ++ '-' :: b) = false) := by
  refine ⟨fun s A B hA hB => in_expected_digit_range s A B hA hB, ?_, ?_⟩
  · intro s A B hA hB hlt
    rw [Bool.eq_false_iff]
    intro hcontra
    have := (in_expected_digit_range s A B hA hB).mp hcontra
    omega
  · intro s a b hda hca hcb hstrip hnd
    rw [in_expected_dash s a b hda hca hcb hstrip]
    cases h1 : pyIsDigit a with
    | false => simp [h1]
    | true =>
      cases h2 : pyIsDigit b with
      | false => simp [h1, h2]
      | true => exact absurd ⟨h1, h2⟩ hnd

/-- Instantiation of the C1 theorem: 250 is inside 200-399, no s matches the
reversed range 399-200, and the malformed token 2x-399 never matches. -/
theorem claim_C1_witness :
    (in_expected 250 ("200".toList ++ '-' :: "399".toList) = true) ∧
    (in_expected 250 ("399".toList ++ '-' :: "200".toList) = false) ∧
    (in_expected 250 ("2x".toList ++ '-' :: "399".toList) = false) := by
  refine ⟨?_, ?_, ?_⟩
  · exact (claim_C1_range_token_semantics.1 250 ("200".toList) ("399".toList)
      (by decide) (by decide)).mpr (by decide)
  · exact claim_C1_range_token_semantics.2.1 250 ("399".toList) ("200".toList)
      (by decide) (by decide) (by decide)
  · exact claim_C1_range_token_semantics.2.2 250 ("2x".toList) ("399".toList)
      (by decide) (by decide) (by decide) (by decide) (by decide)

/-- Claim C2: `in_expected` is true iff the status satisfies at least one
valid token of the comma-split, trimmed spec (malformed tokens are skipped
without error); an empty spec matches nothing; and for a comma-list of
decimal integer tokens it is exactly membership in the listed integers. -/
theorem claim_C2_token_list_semantics :
    (∀ (s : Int) (spec : Str),
      (in_expected s spec = true ↔ ∃ t ∈ specTokens spec, tokenSat s t = true)) ∧
    (∀ s : Int, in_expected s [] = false) ∧
    (∀ (s : Int) (ns : List Str), ns ≠ [] → (∀ n ∈ ns, pyIsDigit n = true) →
      (in_expected s (joinComma ns) = true ↔
        ∃ n ∈ ns, (digitsToNat n : Int) = s)) :=
  ⟨in_expected_iff_specTokens, fun _ => rfl,
    fun s ns hne h => in_expected_int_list s ns hne h⟩

/-- Instantiation of the C2 theorem: 201 is in the comma-list 200,201,204,
and no status matches the empty spec. -/
theorem claim_C2_witness :
    (in_expected 201 (joinComma ["200".toList, "201".toList, "204".toList]) = true) ∧
    in_expected 404 [] = false := by
  constructor
  · exact (claim_C2_token_list_semantics.2.2 201
      ["200".toList, "201".toList, "204".toList] (by decide) (by decide)).mpr
      ⟨"201".toList, by decide, by decide⟩
  · exact claim_C2_token_list_semantics.2.1 404

/-- Claim C3: on a received response the produced Check carries the status
code, evaluates ok via `in_expected` against the expected-status spec
(defaulting to 200-399 when the field is absent), and has no error_reason. -/
theorem claim_C3_response_classification :
    ∀ (mon : Monitor) (st : Int),
      (buildCheck mon (.response st)).status_code = some st ∧
      (buildCheck mon (.response st)).ok
        = in_expected st (mon.expected_statuses.getD ("200-399".toList)) ∧
      (buildCheck mon (.response st)).error_reason = none :=
  fun _ _ => ⟨rfl, rfl, rfl⟩

/-- Claim C4 counterexample: a transport failure whose exception describes
itself with the empty string yields a Check whose error_reason is present
but empty, refuting the non-empty part of the claim. -/
theorem claim_C4_counterexample :
    (buildCheck monA (.failure [])).error_reason = some [] ∧
    ¬∃ r : Str, (buildCheck monA (.failure [])).error_reason = some r ∧ r ≠ [] := by
  refine ⟨rfl, ?_⟩
  rintro ⟨r, hr, hne⟩
  have h0 : (buildCheck monA (.failure [])).error_reason = some [] := rfl
  rw [h0] at hr
  exact hne (Option.some.inj hr).symm

/-- Claim C4 amended: on a transport failure the Check has status_code
absent, ok false, and error_reason equal to the first 300 characters of the
failure description — hence at most 300 characters, and non-empty whenever
the description itself is non-empty. -/
theorem claim_C4_failure_classification :
    ∀ (mon : Monitor) (desc : Str),
      (buildCheck mon (.failure desc)).status_code = none ∧
      (buildCheck mon (.failure desc)).ok = false ∧
      (buildCheck mon (.failure desc)).error_reason = some (desc.take 300) ∧
      (desc.take 300).length ≤ 300 ∧
      (desc ≠ [] → desc.take 300 ≠ []) := by
  intro mon desc
  refine ⟨rfl, rfl, rfl, ?_, ?_⟩
  · rw [List.length_take]
    exact Nat.min_le_left 300 desc.length
  · intro hne
    simp [List.take_eq_nil_iff, hne]

/-- Instantiation of the C4 amended theorem at a concrete failure. -/
theorem claim_C4_witness :
    (buildCheck monA (.failure ("connection refused".toList))).status_code = none ∧
    (buildCheck monA (.failure ("connection refused".toList))).ok = false ∧
    (buildCheck monA (.failure ("connection refused".toList))).error_reason
      = some (("connection refused".toList).take 300) ∧
    ("connection refused".toList).take 300 ≠ [] := by
  obtain ⟨h1, h2, h3, -, h5⟩ :=
    claim_C4_failure_classification monA ("connection refused".toList)
  exact ⟨h1, h2, h3, h5 (by decide)⟩

/-- Claim C5 counterexample: when the delivery POST to the store fails, the
probe operation returns that error — the failure of the result-delivery
call propagates to the caller rather than ending in a classified result. -/
theorem claim_C5_counterexample :
    check_once monA (.response 200) postRefused
      = .error ("connect refused to api".toList) := rfl

/-- Claim C5 amended: the probe-and-classify phase of check_once never
fails — whenever the delivery POST succeeds, check_once returns the
classified Check for every probe outcome, including transport failures —
and any error check_once does propagate is exactly a delivery error of the
POST, which the scheduling loop catches at cycle level. -/
theorem claim_C5_probe_phase_total :
    (∀ (mon : Monitor) (outcome : ProbeOutcome)
        (post : CheckPayload → Except Str Unit),
      (∀ c, post c = .ok ()) →
      check_once mon outcome post = .ok (buildCheck mon outcome)) ∧
    (∀ (mon : Monitor) (outcome : ProbeOutcome)
        (post : CheckPayload → Except Str Unit) (e : Str),
      check_once mon outcome post = .error e →
      post (buildCheck mon outcome) = .error e) := by
  constructor
  · intro mon outcome post hpost
    simp [check_once, hpost]
  · intro mon outcome post e h
    simp only [check_once] at h
    cases hp : post (buildCheck mon outcome) with
    | ok u => rw [hp] at h; cases h
    | error e2 => rw [hp] at h; cases h; rfl

/-- Instantiation of the C5 amended theorem: with a succeeding POST, a
transport-failure probe still ends in a classified delivered Check. -/
theorem claim_C5_witness :
    check_once monA (.failure ("timeout".toList)) postAccepts
      = .ok (buildCheck monA (.failure ("timeout".toList))) :=
  claim_C5_probe_phase_total.1 monA (.failure ("timeout".toList)) postAccepts
    (fun _ => rfl)

/-- Claim C6: every Check a probe produces has ok true exactly when a status
code is present and matches the expected-status spec, and error_reason is
present only on transport failure — never alongside a received status. -/
theorem claim_C6_check_invariant :
    ∀ (mon : Monitor) (outcome : ProbeOutcome),
      ((buildCheck mon outcome).ok = true ↔
        ∃ st : Int, (buildCheck mon outcome).status_code = some st ∧
          in_expected st (expectedSpec mon) = true) ∧
      ((buildCheck mon outcome).error_reason ≠ none →
        (buildCheck mon outcome).status_code = none ∧
          (buildCheck mon outcome).ok = false) := by
  intro mon outcome
  cases outcome <;> simp [buildCheck]

/-- Instantiation of the C6 theorem at a concrete transport failure. -/
theorem claim_C6_witness :
    (buildCheck monA (.failure ("refused".toList))).status_code = none ∧
    (buildCheck monA (.failure ("refused".toList))).ok = false :=
  (claim_C6_check_invariant monA (.failure ("refused".toList))).2 (by simp [buildCheck])

/-- Claim C7: when every fetched monitor is enabled, one cycle launches one
probe per monitor and attempts exactly as many delivery POSTs; a monitor
with is_enabled false is never among the probed monitors. -/
theorem claim_C7_fanout_counts :
    (∀ (monitors : List Monitor) (probeOf : Monitor → ProbeOutcome)
        (post : CheckPayload → Except Str Unit),
      (∀ m ∈ monitors, m.is_enabled = some true) →
      (runnerCycle (.ok monitors) probeOf post).probesLaunched = monitors ∧
      (runnerCycle (.ok monitors) probeOf post).postAttempts.length
        = monitors.length) ∧
    (∀ (monitors : List Monitor) (m : Monitor) (probeOf : Monitor → ProbeOutcome)
        (post : CheckPayload → Except Str Unit),
      m.is_enabled = some false →
      m ∉ (runnerCycle (.ok monitors) probeOf post).probesLaunched) := by
  constructor
  · intro monitors probeOf post hall
    have hfilter : enabledMonitors monitors = monitors := by
      apply List.filter_eq_self.mpr
      intro m hm
      simp [hall m hm]
    constructor
    · simp [runnerCycle, hfilter]
    · simp [runnerCycle, hfilter]
  · intro monitors m probeOf post hdis hmem
    simp only [runnerCycle, enabledMonitors] at hmem
    have hpred := (List.mem_filter.mp hmem).2
    rw [hdis] at hpred
    exact Bool.false_ne_true hpred

/-- Instantiation of the C7 theorem: a one-element all-enabled fetch gives
one probe and one POST attempt, and a disabled monitor is never probed. -/
theorem claim_C7_witness :
    (runnerCycle (.ok [monB]) probeAll200 postAccepts).probesLaunched = [monB] ∧
    (runnerCycle (.ok [monB]) probeAll200 postAccepts).postAttempts.length = 1 ∧
    monC ∉ (runnerCycle (.ok [monB, monC]) probeAll200 postAccepts).probesLaunched := by
  obtain ⟨h1, h2⟩ := claim_C7_fanout_counts.1 [monB] probeAll200 postAccepts
    (by intro m hm; rw [List.mem_singleton] at hm; subst hm; rfl)
  exact ⟨h1, h2, claim_C7_fanout_counts.2 [monB, monC] monC probeAll200 postAccepts rfl⟩

/-- Claim C8: when fetching the monitor list fails, the cycle launches zero
probes, attempts zero deliveries, logs the fetch error, and still ends in
the single fixed 60-second sleep (the loop does not crash or retry). -/
theorem claim_C8_fetch_failure_skips_cycle :
    ∀ (e : Str) (probeOf : Monitor → ProbeOutcome)
      (post : CheckPayload → Except Str Unit),
      runnerCycle (.error e) probeOf post =
        { probesLaunched := [], postAttempts := [],
          loggedError := some e, sleepSec := 60 } :=
  fun _ _ _ => rfl

/-- Claim C10: a fetched monitor record lacking the is_enabled field is
treated as enabled — the filter defaults a missing field to true — so the
monitor is probed. -/
theorem claim_C10_missing_is_enabled_defaults_true :
    ∀ (monitors : List Monitor) (m : Monitor) (probeOf : Monitor → ProbeOutcome)
      (post : CheckPayload → Except Str Unit),
      m ∈ monitors → m.is_enabled = none →
      m ∈ (runnerCycle (.ok monitors) probeOf post).probesLaunched := by
  intro monitors m probeOf post hm hnone
  show m ∈ enabledMonitors monitors
  exact List.mem_filter.mpr ⟨hm, by rw [hnone]; rfl⟩

/-- Instantiation of the C10 theorem at a monitor with no is_enabled. -/
theorem claim_C10_witness :
    monD ∈ (runnerCycle (.ok [monD]) probeAll200 postAccepts).probesLaunched :=
  claim_C10_missing_is_enabled_defaults_true [monD] monD probeAll200 postAccepts
    (List.mem_singleton.mpr rfl) rfl
